import Mathlib

/-!
Verification of the audio codec and playback pipeline of the Gemini Vox
text-to-speech application.

Numeric model: JavaScript number arithmetic on the values that occur in this
pipeline (int16 values divided by 32768, products with 32767/32768, sums
with 0.5, clock arithmetic) is modelled over the rationals.  Every float the
code manipulates on these paths is a dyadic rational whose products and sums
stay well below 53 bits of mantissa, so IEEE double (and the float32 channel
stores, whose values are int16/2^15) computes them exactly; exact rational
arithmetic is therefore a faithful model.  Byte values are `Fin 256` (the
content of a `Uint8Array`).
-/

/-- JavaScript `x | 0` on an in-int32-range value, and the integer conversion
performed by assigning a number into an `Int16Array` slot: truncation toward
zero. -/
def jsTrunc (q : ℚ) : ℤ := if q < 0 then ⌈q⌉ else ⌊q⌋

/-- `Math.max(-1, Math.min(1, s))`, the clamp used by both encoders
(`src/utils/db.ts` line 157 and line 191). -/
def clamp (s : ℚ) : ℚ := max (-1) (min 1 s)

/-- Low byte of a number, as stored into a `Uint8Array` slot / produced by a
`DataView` little-endian write. -/
def byteOf (n : ℕ) : Fin 256 := ⟨n % 256, Nat.mod_lt _ (by norm_num)⟩

/-- Little-endian bytes of `DataView.setUint16(_, n, true)`. -/
def u16le (n : ℕ) : List (Fin 256) := [byteOf n, byteOf (n / 256)]

/-- Little-endian bytes of `DataView.setUint32(_, n, true)`. -/
def u32le (n : ℕ) : List (Fin 256) :=
  [byteOf n, byteOf (n / 2 ^ 8), byteOf (n / 2 ^ 16), byteOf (n / 2 ^ 24)]

/-- Little-endian bytes of `DataView.setInt16(_, v, true)`: the 16-bit
two's-complement representation of `v`. -/
def int16le (v : ℤ) : List (Fin 256) := u16le (v % 65536).toNat

/-- Reinterpretation of two consecutive bytes as one little-endian signed
16-bit integer (one element of `new Int16Array(bytes.buffer)` on a
little-endian platform). -/
def toInt16 (lo hi : Fin 256) : ℤ :=
  if lo.val + 256 * hi.val < 32768 then ((lo.val + 256 * hi.val : ℕ) : ℤ)
  else ((lo.val + 256 * hi.val : ℕ) : ℤ) - 65536

/-- The full `Int16Array` view over a byte buffer: consecutive little-endian
signed 16-bit integers.  (A trailing odd byte never reaches this function
where it is used: the view construction fails first, see `decodeAudioData`.) -/
def bytesToInt16 : List (Fin 256) → List ℤ
  | [] => []
  | [_] => []
  | lo :: hi :: rest => toInt16 lo hi :: bytesToInt16 rest

/-- Decoded audio: `ctx.createBuffer(numChannels, frameCount, sampleRate)`
with each channel a `Float32Array` of `length` samples. -/
structure AudioBuffer where
  sampleRate : ℕ
  length : ℕ
  data : List (List ℚ)
  deriving DecidableEq

/-- `buffer.numberOfChannels`. -/
def AudioBuffer.numberOfChannels (b : AudioBuffer) : ℕ := b.data.length

/-- `buffer.duration = length / sampleRate` (Web Audio). -/
def AudioBuffer.duration (b : AudioBuffer) : ℚ := (b.length : ℚ) / (b.sampleRate : ℚ)

/-- The errors the decoder can raise: `new Int16Array(buffer)` throws a
`RangeError` when `buffer.byteLength` is not a multiple of 2, and
`ctx.createBuffer` throws a `NotSupportedError` when its frame-count
argument is zero. -/
inductive DecodeError where
  | rangeError
  | notSupportedError
  deriving DecidableEq

/-- `decodeAudioData` (`src/utils/db.ts` lines 98-119), applied to the byte
sequence obtained from the base64 input by `atob`/`binaryToBytes` (platform
primitives modelled as the identity on the byte content).

Line 107 `new Int16Array(bytes.buffer)` throws a `RangeError` when the byte
length is odd.  Line 108 `dataInt16.length / numChannels` is a JS float
division; line 109 `ctx.createBuffer` converts a fractional frame count to an
integer (WebIDL unsigned-long truncation) and then throws a
`NotSupportedError` when the resulting frame count is zero (so also for the
empty input, and for a channel count of zero, where the model's division
yields zero as well); the write loop's out-of-range typed-array stores are
silently dropped.  The net effect, stated by the model, is `⌊count /
channels⌋` frames per channel when that is positive and a
`NotSupportedError` otherwise.  The sample-rate argument is the caller's
fixed 24000 (`SAMPLE_RATE` in `constants.ts`), inside `createBuffer`'s
nominal rate range, so the rate-range check never fires and is not
modelled. -/
def decodeAudioData (bytes : List (Fin 256)) (sampleRate : ℕ) (numChannels : ℕ) :
    Except DecodeError AudioBuffer :=
  if bytes.length % 2 ≠ 0 then .error .rangeError
  else
    let dataInt16 := bytesToInt16 bytes
    let frameCount := dataInt16.length / numChannels
    if frameCount = 0 then .error .notSupportedError
    else
      .ok { sampleRate := sampleRate
            length := frameCount
            data := (List.range numChannels).map fun channel =>
              (List.range frameCount).map fun i =>
                ((dataInt16.getD (i * numChannels + channel) 0 : ℤ) : ℚ) / 32768 }

/-- The float→int16 conversion of `audioBufferToWav` (`src/utils/db.ts` lines
157-158): `sample = Math.max(-1, Math.min(1, channels[i][pos]))` and then
`sample = (0.5 + sample < 0 ? sample * 32768 : sample * 32767) | 0`.
By JS operator precedence the ternary condition is `(0.5 + sample) < 0`. -/
def wavScale (s : ℚ) : ℤ :=
  jsTrunc (if 1 / 2 + clamp s < 0 then clamp s * 32768 else clamp s * 32767)

/-- The 44 header bytes written by `audioBufferToWav` (`src/utils/db.ts` lines
133-148), in write order, with the field expressions the code uses
(`length` is the code's `buffer.length * numOfChan * 2 + 44`; the final field
is the code's `length - pos - 4` with `pos = 40`). -/
def wavHeader (b : AudioBuffer) : List (Fin 256) :=
  u32le 0x46464952 ++
  u32le (b.length * b.numberOfChannels * 2 + 44 - 8) ++
  u32le 0x45564157 ++
  u32le 0x20746d66 ++
  u32le 16 ++
  u16le 1 ++
  u16le b.numberOfChannels ++
  u32le b.sampleRate ++
  u32le (b.sampleRate * 2 * b.numberOfChannels) ++
  u16le (b.numberOfChannels * 2) ++
  u16le 16 ++
  u32le 0x61746164 ++
  u32le (b.length * b.numberOfChannels * 2 + 44 - 40 - 4)

/-- The interleaved payload written by the `while (pos < buffer.length)` loop
of `audioBufferToWav` (`src/utils/db.ts` lines 154-163): for each frame
position one converted sample per channel, in channel order. -/
def wavPayload (b : AudioBuffer) : List (Fin 256) :=
  (List.range b.length).flatMap fun pos =>
    b.data.flatMap fun ch => int16le (wavScale (ch.getD pos 0))

/-- `audioBufferToWav` (`src/utils/db.ts` lines 122-176): the byte content of
the returned WAV `Blob`, header followed by payload. -/
def audioBufferToWav (b : AudioBuffer) : List (Fin 256) :=
  wavHeader b ++ wavPayload b

/-- The float→int16 conversion of `audioBufferToMp3` (`src/utils/db.ts` lines
190-193): `let s = Math.max(-1, Math.min(1, samples[i]))` then
`samplesInt16[i] = s < 0 ? s * 0x8000 : s * 0x7FFF`.  The `Int16Array` store
truncates toward zero; the clamp keeps the value inside the int16 range, so
no wrap occurs. -/
def mp3Int16 (s : ℚ) : ℤ :=
  jsTrunc (if clamp s < 0 then clamp s * 0x8000 else clamp s * 0x7FFF)

/-- The `while (remaining >= sampleBlockSize)` loop of `audioBufferToMp3`
(`src/utils/db.ts` lines 195-206) with `sampleBlockSize = 1152`, written with
a fuel argument bounding the iteration count (each iteration consumes 1152
elements, so the input length is sufficient fuel, see `mp3Chunks`). -/
def mp3ChunksGo : ℕ → List ℤ → List (List ℤ)
  | 0, _ => []
  | fuel + 1, l =>
    if 1152 ≤ l.length then l.take 1152 :: mp3ChunksGo fuel (l.drop 1152) else []

/-- The sequence of 1152-sample blocks handed to `mp3encoder.encodeBuffer` by
the block loop of `audioBufferToMp3`, in call order. -/
def mp3Chunks (l : List ℤ) : List (List ℤ) := mp3ChunksGo l.length l

/-- The complete sequence of `encodeBuffer` arguments produced by
`audioBufferToMp3` (`src/utils/db.ts` lines 179-213) for a buffer: channel 0
(`buffer.getChannelData(0)`; the function assumes mono) converted to int16 and
chunked by the block loop.  `mp3encoder.flush()` is called once afterwards
with no sample argument, so samples not in one of these blocks never reach
the encoder. -/
def audioBufferToMp3Chunks (b : AudioBuffer) : List (List ℤ) :=
  mp3Chunks ((b.data.getD 0 []).map mp3Int16)

/-! Specification-side definitions.  Each is written from the words of the
spec sentence a claim quotes, to be compared with the definition translated
from the source. -/

/-- Conversion rule as claim C1 states it: clamp to `[-1, 1]`, then values
`>= 0` are multiplied by 32767 and values `< 0` by 32768, truncated to
integer. -/
def wavScaleClaimed (s : ℚ) : ℤ :=
  if 0 ≤ clamp s then jsTrunc (clamp s * 32767) else jsTrunc (clamp s * 32768)

/-- Conversion rule that the WAV encoder actually implements (the amended form
of claim C1): clamp to `[-1, 1]`, then values below `-0.5` are multiplied by
32768 and all others by 32767, truncated toward zero. -/
def wavScaleAmended (s : ℚ) : ℤ :=
  if clamp s < -(1 / 2) then jsTrunc (clamp s * 32768) else jsTrunc (clamp s * 32767)

/-- Conversion rule as claim C4 states it: clamp, negative values ×32768,
non-negative values ×32767, truncated. -/
def mp3Int16Claimed (s : ℚ) : ℤ :=
  if clamp s < 0 then jsTrunc (clamp s * 32768) else jsTrunc (clamp s * 32767)

/-- WAV header as claim C6 lists it: `RIFF`, `chunkSize = 36 + dataSize`,
`WAVE`, `fmt `, 16, format 1 (PCM), channel count, sample rate,
`byteRate = sampleRate*channels*2`, `blockAlign = channels*2`,
`bitsPerSample = 16`, `data`, `dataSize = 2*channels*bufferLength`, all
little-endian, the four tags as ASCII. -/
def wavHeaderClaimed (b : AudioBuffer) : List (Fin 256) :=
  [82, 73, 70, 70] ++
  u32le (36 + 2 * b.numberOfChannels * b.length) ++
  [87, 65, 86, 69] ++
  [102, 109, 116, 32] ++
  u32le 16 ++
  u16le 1 ++
  u16le b.numberOfChannels ++
  u32le b.sampleRate ++
  u32le (b.sampleRate * b.numberOfChannels * 2) ++
  u16le (b.numberOfChannels * 2) ++
  u16le 16 ++
  [100, 97, 116, 97] ++
  u32le (2 * b.numberOfChannels * b.length)

/-- One history item as the engine sees it: its id, whether `item.audioBuffer`
is hydrated, and `item.duration`. -/
structure Item where
  id : ℕ
  hasBuffer : Bool
  duration : ℚ
  deriving DecidableEq

/-- Engine state: React state variables (`activeId`, `isPlaying`,
`currentTime`, `duration`, `previewVoice`, `playbackRate`) and refs
(`sourceNodeRef`, `previewSourceRef`, `rafRef`, `startTimeRef`,
`pauseTimeRef`).  A `true` source field means the corresponding ref holds a
live (emitting) source node. -/
structure EngineState where
  activeId : Option ℕ
  isPlaying : Bool
  currentTime : ℚ
  duration : ℚ
  pauseTime : ℚ
  startTime : ℚ
  playbackRate : ℚ
  sourceNode : Bool
  rafActive : Bool
  previewSource : Bool
  previewVoice : Option ℕ
  deriving DecidableEq

/-- `stopAudio` (`src/unnamed/part_004` lines 140-147, `src/App.tsx` lines
105-112): stop and drop the main source node, cancel the animation frame,
clear `isPlaying`. -/
def stopAudio (s : EngineState) : EngineState :=
  { s with sourceNode := false, rafActive := false, isPlaying := false }

/-- `playAudio(item, offset)` (`src/unnamed/part_004` lines 149-193;
`src/App.tsx` lines 114-158 are the same function without the preview
teardown).  `now` is `ctx.currentTime` at the call.  The guard clause returns
unchanged when the item has no hydrated buffer.  The first `tick()` runs
synchronously at `now`, so a start position at or beyond the duration stops
the emission immediately and clamps the displayed time; otherwise the
animation loop is scheduled. -/
def playAudio (s : EngineState) (item : Item) (offset now : ℚ) : EngineState :=
  if !item.hasBuffer then s
  else
    let s1 := if s.activeId ≠ some item.id then stopAudio s
              else if s.isPlaying then stopAudio s else s
    let s2 := if s1.previewSource
              then { s1 with previewSource := false, previewVoice := none }
              else s1
    let startTime := now - offset / s.playbackRate
    let s3 := { s2 with
                sourceNode := true
                startTime := startTime
                activeId := some item.id
                duration := item.duration
                isPlaying := true }
    let current := (now - startTime) * s.playbackRate
    if item.duration ≤ current then
      { stopAudio s3 with currentTime := item.duration }
    else
      { s3 with currentTime := current, rafActive := true }

/-- `handleSeek(time)` (`src/unnamed/part_004` lines 195-206, `src/App.tsx`
lines 160-171): record the time in `pauseTimeRef` and `currentTime`; restart
emission at that time only when playing. -/
def handleSeek (s : EngineState) (history : List Item) (time now : ℚ) : EngineState :=
  match s.activeId with
  | none => s
  | some id =>
    match history.find? (fun h => h.id == id) with
    | none => s
    | some item =>
      let s1 := { s with pauseTime := time, currentTime := time }
      if s.isPlaying then playAudio s1 item time now else s1

/-- `handlePreviewVoice(voiceName)` (`src/unnamed/part_004` lines 227-270):
stop the main emission if playing, stop any running preview, toggle off when
the same voice is previewed again, otherwise decode (or synthesize) the
preview buffer and start it; on a decode failure the preview marker is
cleared.  `ok` models whether the `try` block reaches `source.start()`. -/
def handlePreviewVoice (s : EngineState) (voiceName : ℕ) (ok : Bool) : EngineState :=
  let s1 := if s.isPlaying then stopAudio s else s
  let s2 := if s1.previewSource then { s1 with previewSource := false } else s1
  if s2.previewVoice = some voiceName then { s2 with previewVoice := none }
  else if ok then { s2 with previewVoice := some voiceName, previewSource := true }
  else { s2 with previewVoice := none }

/-- Number of live emitting sources: the main source node plus the preview
source node. -/
def emissions (s : EngineState) : ℕ :=
  (if s.sourceNode then 1 else 0) + (if s.previewSource then 1 else 0)

/-- Basic well-formedness the component maintains: the main source ref is
non-null exactly while `isPlaying` is set (both are always written together,
in `stopAudio` and in `playAudio`). -/
def EngineWF (s : EngineState) : Prop := s.sourceNode = s.isPlaying

/-! Arithmetic helper lemmas. -/

theorem jsTrunc_eq_of_neg {q : ℚ} {z : ℤ} (h0 : q < 0) (h1 : (z : ℚ) - 1 < q)
    (h2 : q ≤ (z : ℚ)) : jsTrunc q = z := by
  unfold jsTrunc
  rw [if_pos h0]
  exact Int.ceil_eq_iff.mpr ⟨h1, h2⟩

theorem jsTrunc_zero : jsTrunc 0 = 0 := by
  unfold jsTrunc
  norm_num

theorem clamp_eq_self {s : ℚ} (h1 : -1 ≤ s) (h2 : s ≤ 1) : clamp s = s := by
  unfold clamp
  rw [min_eq_right h2, max_eq_right h1]

theorem bytesToInt16_nil : bytesToInt16 [] = [] := rfl

theorem bytesToInt16_cons (lo hi : Fin 256) (rest : List (Fin 256)) :
    bytesToInt16 (lo :: hi :: rest) = toInt16 lo hi :: bytesToInt16 rest := rfl

theorem bytesToInt16_length (l : List (Fin 256)) :
    (bytesToInt16 l).length = l.length / 2 := by
  induction l using bytesToInt16.induct with
  | case1 => rfl
  | case2 a => simp [bytesToInt16]
  | case3 lo hi rest ih =>
    rw [bytesToInt16_cons]
    simp only [List.length_cons]
    omega

theorem int16le_length (v : ℤ) : (int16le v).length = 2 := rfl

/-! List helper lemmas. -/

theorem map_getD_range {α β : Type} (l : List α) (d : α) (f : α → β) :
    (List.range l.length).map (fun i => f (l.getD i d)) = l.map f := by
  induction l with
  | nil => simp
  | cons a t ih =>
    rw [List.length_cons, List.range_succ_eq_map, List.map_cons, List.map_map, List.map_cons]
    refine congrArg₂ List.cons (by simp) ?_
    simpa [Function.comp_def] using ih

theorem sum_map_const {α : Type} (l : List α) (c : ℕ) :
    (l.map fun _ => c).sum = l.length * c := by
  induction l with
  | nil => simp
  | cons a t ih =>
    simp only [List.map_cons, List.sum_cons, List.length_cons, ih]
    ring

theorem decodeAudioData_odd {bytes : List (Fin 256)} (sr ch : ℕ)
    (h : bytes.length % 2 = 1) :
    decodeAudioData bytes sr ch = .error .rangeError := by
  unfold decodeAudioData
  rw [if_pos (by omega)]

theorem decodeAudioData_no_frames {bytes : List (Fin 256)} (sr ch : ℕ)
    (h : bytes.length % 2 = 0) (hfc : (bytesToInt16 bytes).length / ch = 0) :
    decodeAudioData bytes sr ch = .error .notSupportedError := by
  simp only [decodeAudioData]
  rw [if_neg (by omega), if_pos hfc]

theorem decodeAudioData_even {bytes : List (Fin 256)} (sr ch : ℕ)
    (h : bytes.length % 2 = 0) (hfc : (bytesToInt16 bytes).length / ch ≠ 0) :
    decodeAudioData bytes sr ch = .ok
      { sampleRate := sr
        length := (bytesToInt16 bytes).length / ch
        data := (List.range ch).map fun channel =>
          (List.range ((bytesToInt16 bytes).length / ch)).map fun i =>
            (((bytesToInt16 bytes).getD (i * ch + channel) 0 : ℤ) : ℚ) / 32768 } := by
  simp only [decodeAudioData]
  rw [if_neg (by omega), if_neg hfc]

theorem decodeAudioData_mono {bytes : List (Fin 256)} (sr : ℕ)
    (h : bytes.length % 2 = 0) (hnz : bytes.length ≠ 0) :
    decodeAudioData bytes sr 1 = .ok
      { sampleRate := sr
        length := bytes.length / 2
        data := [(bytesToInt16 bytes).map fun v => ((v : ℤ) : ℚ) / 32768] } := by
  rw [decodeAudioData_even sr 1 h
    (by rw [Nat.div_one, bytesToInt16_length]; omega)]
  simp only [Nat.div_one, show List.range 1 = [0] from rfl, List.map_cons, List.map_nil,
    Nat.mul_one, Nat.add_zero]
  rw [map_getD_range (bytesToInt16 bytes) 0 (fun v => ((v : ℤ) : ℚ) / 32768),
    bytesToInt16_length]

theorem wavHeader_length (b : AudioBuffer) : (wavHeader b).length = 44 := by
  simp [wavHeader, u32le, u16le]

theorem wavHeaderClaimed_length (b : AudioBuffer) : (wavHeaderClaimed b).length = 44 := by
  simp [wavHeaderClaimed, u32le, u16le]

theorem wavHeader_eq_claimed (b : AudioBuffer) : wavHeader b = wavHeaderClaimed b := by
  unfold wavHeader wavHeaderClaimed
  rw [show b.length * b.numberOfChannels * 2 + 44 - 8
      = 36 + 2 * b.numberOfChannels * b.length by
    rw [show b.length * b.numberOfChannels * 2 = 2 * b.numberOfChannels * b.length by ring]
    omega]
  rw [show b.length * b.numberOfChannels * 2 + 44 - 40 - 4
      = 2 * b.numberOfChannels * b.length by
    rw [show b.length * b.numberOfChannels * 2 = 2 * b.numberOfChannels * b.length by ring]
    omega]
  rw [show b.sampleRate * 2 * b.numberOfChannels
      = b.sampleRate * b.numberOfChannels * 2 by ring]
  rw [show u32le 0x46464952 = [82, 73, 70, 70] from by decide,
    show u32le 0x45564157 = [87, 65, 86, 69] from by decide,
    show u32le 0x20746d66 = [102, 109, 116, 32] from by decide,
    show u32le 0x61746164 = [100, 97, 116, 97] from by decide]

theorem wavPayload_length (b : AudioBuffer) :
    (wavPayload b).length = b.length * b.numberOfChannels * 2 := by
  unfold wavPayload
  rw [List.length_flatMap]
  have hinner : ∀ pos : ℕ,
      (List.length ∘ fun pos => b.data.flatMap fun ch => int16le (wavScale (ch.getD pos 0))) pos
        = b.numberOfChannels * 2 := by
    intro pos
    simp only [Function.comp_apply]
    rw [List.length_flatMap]
    rw [List.map_congr_left (g := fun _ => 2) fun ch _ => by
      simp [Function.comp_apply, int16le_length]]
    rw [sum_map_const]
    rfl
  rw [List.map_congr_left fun pos _ => hinner pos, sum_map_const, List.length_range]
  ring

theorem audioBufferToWav_length (b : AudioBuffer) :
    (audioBufferToWav b).length = 44 + 2 * b.numberOfChannels * b.length := by
  unfold audioBufferToWav
  rw [List.length_append, wavHeader_length, wavPayload_length]
  ring

theorem mp3ChunksGo_flatten (fuel : ℕ) : ∀ l : List ℤ, l.length ≤ fuel →
    (mp3ChunksGo fuel l).flatten = l.take (1152 * (l.length / 1152)) := by
  induction fuel with
  | zero =>
    intro l hl
    have : l = [] := List.eq_nil_of_length_eq_zero (by omega)
    subst this
    rfl
  | succ n ih =>
    intro l hl
    unfold mp3ChunksGo
    split_ifs with h1152
    · rw [List.flatten_cons, ih (l.drop 1152) (by rw [List.length_drop]; omega),
        List.length_drop, ← List.take_add]
      congr 1
      omega
    · have h0 : l.length / 1152 = 0 := by omega
      rw [h0]
      simp

theorem mp3ChunksGo_mem (fuel : ℕ) : ∀ (l : List ℤ), l.length ≤ fuel →
    ∀ c ∈ mp3ChunksGo fuel l, c.length = 1152 := by
  induction fuel with
  | zero => intro l hl c hc; cases hc
  | succ n ih =>
    intro l hl c hc
    unfold mp3ChunksGo at hc
    split_ifs at hc with h1152
    · rcases List.mem_cons.mp hc with rfl | hc
      · rw [List.length_take]
        omega
      · exact ih (l.drop 1152) (by rw [List.length_drop]; omega) c hc
    · cases hc

theorem mp3Chunks_flatten (l : List ℤ) :
    (mp3Chunks l).flatten = l.take (1152 * (l.length / 1152)) :=
  mp3ChunksGo_flatten l.length l le_rfl

theorem mp3Chunks_mem (l : List ℤ) : ∀ c ∈ mp3Chunks l, c.length = 1152 :=
  mp3ChunksGo_mem l.length l le_rfl

/-! Playback-engine helper lemmas. -/

theorem playAudio_current (s : EngineState) (off now : ℚ) (hrate : s.playbackRate ≠ 0) :
    (now - (now - off / s.playbackRate)) * s.playbackRate = off := by
  rw [sub_sub_cancel, div_mul_cancel₀ _ hrate]

theorem playAudio_no_buffer (s : EngineState) (item : Item) (off now : ℚ)
    (h : item.hasBuffer = false) : playAudio s item off now = s := by
  simp [playAudio, h]

theorem playAudio_overrun (s : EngineState) (item : Item) (off now : ℚ)
    (hbuf : item.hasBuffer = true) (hrate : s.playbackRate ≠ 0)
    (hoff : item.duration ≤ off) :
    (playAudio s item off now).currentTime = item.duration ∧
    (playAudio s item off now).isPlaying = false ∧
    (playAudio s item off now).sourceNode = false ∧
    (playAudio s item off now).previewSource = false ∧
    (playAudio s item off now).rafActive = false ∧
    (playAudio s item off now).activeId = some item.id := by
  simp only [playAudio, hbuf, Bool.not_true]
  rw [playAudio_current s off now hrate]
  split_ifs <;> simp_all [stopAudio]

theorem playAudio_normal (s : EngineState) (item : Item) (off now : ℚ)
    (hbuf : item.hasBuffer = true) (hrate : s.playbackRate ≠ 0)
    (hoff : off < item.duration) :
    (playAudio s item off now).currentTime = off ∧
    (playAudio s item off now).isPlaying = true ∧
    (playAudio s item off now).sourceNode = true ∧
    (playAudio s item off now).previewSource = false ∧
    (playAudio s item off now).rafActive = true ∧
    (playAudio s item off now).activeId = some item.id := by
  simp only [playAudio, hbuf, Bool.not_true]
  rw [playAudio_current s off now hrate]
  split_ifs <;> simp_all [stopAudio] <;> linarith

/-! Claim theorems. -/

/-- C1 counterexample: at sample value -1/4 the WAV encoder multiplies by
32767 (giving -8191), while the claimed rule (negatives ×32768) gives -8192;
the claimed conversion rule is false of the code. -/
theorem wav_scale_claimed_rule_fails :
    wavScale (-(1 / 4)) = -8191 ∧ wavScaleClaimed (-(1 / 4)) = -8192 ∧
    wavScale (-(1 / 4)) ≠ wavScaleClaimed (-(1 / 4)) := by
  have hc : clamp (-(1 / 4)) = -(1 / 4) := clamp_eq_self (by norm_num) (by norm_num)
  have h1 : wavScale (-(1 / 4)) = -8191 := by
    unfold wavScale
    rw [hc, if_neg (by norm_num)]
    exact jsTrunc_eq_of_neg (by norm_num) (by push_cast; norm_num) (by push_cast; norm_num)
  have h2 : wavScaleClaimed (-(1 / 4)) = -8192 := by
    unfold wavScaleClaimed
    rw [hc, if_neg (by norm_num)]
    exact jsTrunc_eq_of_neg (by norm_num) (by push_cast; norm_num) (by push_cast; norm_num)
  refine ⟨h1, h2, ?_⟩
  rw [h1, h2]
  decide

/-- C1 (amended): the WAV float→int16 conversion clamps to [-1, 1] and then
scales with the threshold at -0.5, not at 0: clamped values below -0.5 are
multiplied by 32768 and all others (including negatives in [-0.5, 0)) by
32767, truncated toward zero. -/
theorem wav_scale_half_threshold (s : ℚ) : wavScale s = wavScaleAmended s := by
  unfold wavScale wavScaleAmended
  rw [congrArg jsTrunc (if_congr (show (1 / 2 + clamp s < 0) ↔ (clamp s < -(1 / 2)) from
    ⟨fun h => by linarith, fun h => by linarith⟩) rfl rfl)]
  exact apply_ite jsTrunc _ _ _

/-- C2 counterexample: a one-byte input (odd length, hence not an even
multiple of 2×channels for mono) makes the decoder fail with a RangeError
instead of succeeding with the partial frame dropped. -/
theorem decode_odd_length_fails :
    decodeAudioData [0] 24000 1 = .error .rangeError ∧ ¬((1 : ℕ) % (2 * 1) = 0) :=
  ⟨decodeAudioData_odd 24000 1 rfl, by decide⟩

/-- C2 (amended): on an odd byte length the decoder fails with a RangeError
(the Int16Array view cannot be constructed); on an even byte length with a
zero frame count — fewer complete frames than one, including the empty
input — it fails with a NotSupportedError (createBuffer rejects a zero
length); otherwise it succeeds and the trailing partial frame is dropped:
every channel holds ⌊byteLength/2/channels⌋ samples. -/
theorem decode_truncation_policy (bytes : List (Fin 256)) (sr ch : ℕ) :
    (bytes.length % 2 = 1 → decodeAudioData bytes sr ch = .error .rangeError) ∧
    (bytes.length % 2 = 0 → bytes.length / 2 / ch = 0 →
      decodeAudioData bytes sr ch = .error .notSupportedError) ∧
    (bytes.length % 2 = 0 → bytes.length / 2 / ch ≠ 0 →
      ∃ b, decodeAudioData bytes sr ch = .ok b ∧
        b.numberOfChannels = ch ∧
        b.length = bytes.length / 2 / ch ∧
        ∀ c ∈ b.data, c.length = bytes.length / 2 / ch) := by
  refine ⟨decodeAudioData_odd sr ch,
    fun h h0 => decodeAudioData_no_frames sr ch h (by rw [bytesToInt16_length]; exact h0),
    fun h h0 => ⟨_,
      decodeAudioData_even sr ch h (by rw [bytesToInt16_length]; exact h0), ?_, ?_, ?_⟩⟩
  · simp [AudioBuffer.numberOfChannels]
  · simp [bytesToInt16_length]
  · intro c hc
    rcases List.mem_map.mp hc with ⟨channel, _, rfl⟩
    simp [bytesToInt16_length]

/-- C2 witness: two bytes decoded as stereo give one int16 value, no complete
frame, and a NotSupportedError; six bytes decoded as stereo give three int16
values, and the trailing partial frame is dropped, leaving one frame per
channel. -/
theorem decode_truncation_policy_witness :
    decodeAudioData [0, 0] 24000 2 = .error .notSupportedError ∧
    (∃ b, decodeAudioData [0, 0, 0, 0, 0, 0] 24000 2 = .ok b ∧
      b.numberOfChannels = 2 ∧ b.length = 1 ∧ ∀ c ∈ b.data, c.length = 1) := by
  constructor
  · exact (decode_truncation_policy [0, 0] 24000 2).2.1 rfl rfl
  · have h := (decode_truncation_policy ([0, 0, 0, 0, 0, 0] : List (Fin 256)) 24000 2).2.2
      rfl (by decide)
    simpa using h

/-- C5 counterexample: the empty input has even byte length L = 0, but mono
decoding fails with a NotSupportedError (createBuffer rejects the zero frame
count L/2 = 0) instead of succeeding with a zero-sample buffer. -/
theorem decode_empty_fails :
    decodeAudioData [] 24000 1 = .error .notSupportedError ∧
    ([] : List (Fin 256)).length % 2 = 0 :=
  ⟨decodeAudioData_no_frames 24000 1 rfl rfl, rfl⟩

/-- C5 (amended): decoding a nonempty even-length byte sequence as mono
yields byteLength/2 samples, each the corresponding little-endian int16
value divided by 32768, with duration (byteLength/2)/sampleRate; at byte
length 0 the decoder fails instead (createBuffer rejects the zero frame
count). -/
theorem decode_mono_spec (bytes : List (Fin 256)) (sr : ℕ) (h : bytes.length % 2 = 0)
    (hnz : bytes.length ≠ 0) :
    ∃ b, decodeAudioData bytes sr 1 = .ok b ∧
      b.length = bytes.length / 2 ∧
      b.data = [(bytesToInt16 bytes).map fun v => ((v : ℤ) : ℚ) / 32768] ∧
      b.duration = ((bytes.length / 2 : ℕ) : ℚ) / (sr : ℚ) :=
  ⟨_, decodeAudioData_mono sr h hnz, rfl, rfl, rfl⟩

/-- C5 witness: the four bytes 52 18 255 255 decode to the two samples
4660/32768 and -1/32768 with duration 2/24000. -/
theorem decode_mono_spec_witness :
    ∃ b, decodeAudioData [52, 18, 255, 255] 24000 1 = .ok b ∧
      b.length = 2 ∧
      b.data = [(bytesToInt16 [52, 18, 255, 255]).map fun v => ((v : ℤ) : ℚ) / 32768] ∧
      b.duration = ((2 : ℕ) : ℚ) / (24000 : ℚ) := by
  have h := decode_mono_spec [52, 18, 255, 255] 24000 rfl (by decide)
  simpa using h

/-- C7 counterexample: on an empty (zero-length) buffer the WAV encoder does
not fail and does not emit nothing: it emits exactly 44 bytes (a full
header), so there is no fail-fast EncodeError. -/
theorem wav_empty_buffer_emits_header :
    (audioBufferToWav { sampleRate := 24000, length := 0, data := [[]] }).length = 44 ∧
    (44 : ℕ) ≠ 0 := by
  refine ⟨?_, by decide⟩
  rw [audioBufferToWav_length]
  rfl

/-- C7 (amended): neither encoder checks for an empty buffer; on a
zero-length buffer the WAV encoder succeeds and emits exactly the canonical
44-byte header (with dataSize 0, a valid header, not a corrupt one), and the
MP3 encoder feeds no blocks to the block encoder. -/
theorem encoders_total_on_empty (sr ch : ℕ) :
    audioBufferToWav { sampleRate := sr, length := 0, data := List.replicate ch [] }
      = wavHeaderClaimed { sampleRate := sr, length := 0, data := List.replicate ch [] } ∧
    (wavHeaderClaimed { sampleRate := sr, length := 0, data := List.replicate ch [] }).length
      = 44 ∧
    audioBufferToMp3Chunks { sampleRate := sr, length := 0, data := List.replicate ch [] }
      = [] := by
  refine ⟨?_, wavHeaderClaimed_length _, ?_⟩
  · unfold audioBufferToWav
    rw [wavHeader_eq_claimed]
    have hpay : wavPayload { sampleRate := sr, length := 0, data := List.replicate ch [] }
        = [] := by
      unfold wavPayload
      rfl
    rw [hpay, List.append_nil]
  · unfold audioBufferToMp3Chunks
    have h0 : (List.replicate ch ([] : List ℚ)).getD 0 [] = [] := by
      cases ch <;> simp [List.replicate]
    rw [h0]
    rfl

/-- C10: for every buffer, also the empty one, the WAV encoder totally
produces 44 + 2 × channels × length bytes. -/
theorem wav_output_length (b : AudioBuffer) :
    (audioBufferToWav b).length = 44 + 2 * b.numberOfChannels * b.length :=
  audioBufferToWav_length b

/-- C4 counterexample: a one-sample buffer feeds no block at all to the MP3
block encoder (the loop only feeds full 1152-sample blocks and flush receives
no samples), so the samples fed to the encoder are not all the converted
samples: the trailing samples are dropped, not encoded by the flush. -/
theorem mp3_trailing_samples_dropped :
    (audioBufferToMp3Chunks { sampleRate := 24000, length := 1, data := [[0]] }).flatten
      = [] ∧
    ([(0 : ℚ)].map mp3Int16 = [0]) ∧
    (audioBufferToMp3Chunks { sampleRate := 24000, length := 1, data := [[0]] }).flatten
      ≠ [(0 : ℚ)].map mp3Int16 := by
  have h0 : mp3Int16 0 = 0 := by
    unfold mp3Int16
    rw [clamp_eq_self (by norm_num) (by norm_num), if_neg (by norm_num), zero_mul,
      jsTrunc_zero]
  refine ⟨?_, by simp [h0], ?_⟩
  · rfl
  · simp [h0, audioBufferToMp3Chunks, mp3Chunks, mp3ChunksGo]

/-- C4 (amended): the MP3 encoder converts channel 0 with the symmetric
clamp-and-scale rule exactly as claimed, feeds the converted samples to the
block encoder in fixed 1152-sample blocks in input order, and concatenates
frames in input order, but the trailing remainder (fewer than 1152 samples)
is never passed to the encoder: the samples fed are exactly the first
1152·⌊n/1152⌋ converted samples, and the final flush receives no samples. -/
theorem mp3_block_feed (b : AudioBuffer) :
    (∀ s : ℚ, mp3Int16 s = mp3Int16Claimed s) ∧
    (∀ c ∈ audioBufferToMp3Chunks b, c.length = 1152) ∧
    (audioBufferToMp3Chunks b).flatten
      = ((b.data.getD 0 []).map mp3Int16).take
          (1152 * (((b.data.getD 0 []).map mp3Int16).length / 1152)) := by
  exact ⟨fun s => apply_ite jsTrunc _ _ _, mp3Chunks_mem _, mp3Chunks_flatten _⟩

/-- C8 counterexample: with history item 1 of duration 1 active and the
engine paused, seeking to time 2 (beyond the duration) stores position 2
unclamped; the claim that the resulting position is clamped to the duration
in the paused case is false. -/
theorem seek_paused_not_clamped :
    (handleSeek
      { activeId := some 1, isPlaying := false, currentTime := 0, duration := 1,
        pauseTime := 0, startTime := 0, playbackRate := 1, sourceNode := false,
        rafActive := false, previewSource := false, previewVoice := none }
      [{ id := 1, hasBuffer := true, duration := 1 }] 2 0).currentTime = 2 ∧
    (2 : ℚ) ≠ 1 := by
  refine ⟨?_, by norm_num⟩
  rfl

/-- C8 (amended): seeking to a time at or beyond the active item's duration
raises no error and leaves the engine not playing with no live source.
While playing, the synchronous first tick of the restarted emission clamps
the position to the duration; while paused, the stored position is set to
the requested time itself, without clamping. -/
theorem seek_beyond_duration (s : EngineState) (history : List Item) (item : Item)
    (id : ℕ) (time now : ℚ) (hwf : EngineWF s) (hactive : s.activeId = some id)
    (hfind : history.find? (fun h => h.id == id) = some item)
    (hbuf : item.hasBuffer = true) (hrate : s.playbackRate ≠ 0)
    (htime : item.duration ≤ time) :
    ((handleSeek s history time now).isPlaying = false ∧
     (handleSeek s history time now).sourceNode = false) ∧
    (s.isPlaying = true → (handleSeek s history time now).currentTime = item.duration) ∧
    (s.isPlaying = false → (handleSeek s history time now).currentTime = time) := by
  unfold handleSeek EngineWF at *
  obtain ⟨a, ip, ct, du, pt, st, pr, sn, ra, ps, pv⟩ := s
  dsimp only at *
  subst hactive
  simp only [hfind]
  cases ip with
  | true =>
    simp only [if_true]
    have h := playAudio_overrun
      { activeId := some id, isPlaying := true, currentTime := time, duration := du,
        pauseTime := time, startTime := st, playbackRate := pr, sourceNode := sn,
        rafActive := ra, previewSource := ps, previewVoice := pv }
      item time now hbuf hrate htime
    exact ⟨⟨h.2.1, h.2.2.1⟩, fun _ => h.1, fun hcon => absurd hcon (by decide)⟩
  | false =>
    simp only [Bool.false_eq_true, if_false]
    exact ⟨⟨by simp, hwf⟩, fun hcon => absurd hcon (by decide), fun _ => by simp⟩

/-- C8 witness: seeking to time 2 while playing item 1 (duration 1, rate 1)
clamps the position to 1 and ends not playing; the paused branch of the
conclusion holds vacuously. -/
theorem seek_beyond_duration_witness :
    ((handleSeek
        { activeId := some 1, isPlaying := true, currentTime := 0, duration := 1,
          pauseTime := 0, startTime := 0, playbackRate := 1, sourceNode := true,
          rafActive := true, previewSource := false, previewVoice := none }
        [{ id := 1, hasBuffer := true, duration := 1 }] 2 0).isPlaying = false ∧
     (handleSeek
        { activeId := some 1, isPlaying := true, currentTime := 0, duration := 1,
          pauseTime := 0, startTime := 0, playbackRate := 1, sourceNode := true,
          rafActive := true, previewSource := false, previewVoice := none }
        [{ id := 1, hasBuffer := true, duration := 1 }] 2 0).sourceNode = false) ∧
    ((true : Bool) = true →
      (handleSeek
        { activeId := some 1, isPlaying := true, currentTime := 0, duration := 1,
          pauseTime := 0, startTime := 0, playbackRate := 1, sourceNode := true,
          rafActive := true, previewSource := false, previewVoice := none }
        [{ id := 1, hasBuffer := true, duration := 1 }] 2 0).currentTime = 1) ∧
    ((true : Bool) = false →
      (handleSeek
        { activeId := some 1, isPlaying := true, currentTime := 0, duration := 1,
          pauseTime := 0, startTime := 0, playbackRate := 1, sourceNode := true,
          rafActive := true, previewSource := false, previewVoice := none }
        [{ id := 1, hasBuffer := true, duration := 1 }] 2 0).currentTime = 2) :=
  seek_beyond_duration
    { activeId := some 1, isPlaying := true, currentTime := 0, duration := 1,
      pauseTime := 0, startTime := 0, playbackRate := 1, sourceNode := true,
      rafActive := true, previewSource := false, previewVoice := none }
    [{ id := 1, hasBuffer := true, duration := 1 }]
    { id := 1, hasBuffer := true, duration := 1 } 1 2 0
    rfl rfl rfl rfl (by norm_num) (by norm_num)

/-- C9: from any well-formed engine state with at most one live emission,
starting item playback or a voice preview leaves at most one live emission
(each handler first tears down whatever was emitting), and a successful
playback start (hydrated buffer, positive-rate start position inside the
duration) leaves exactly one live emission: the new main source, with any
preview stopped and the new item active. -/
theorem single_emission_invariant (s : EngineState) (item : Item) (off now : ℚ)
    (v : ℕ) (ok : Bool) (hwf : EngineWF s) (hone : emissions s ≤ 1) :
    emissions (playAudio s item off now) ≤ 1 ∧
    emissions (handlePreviewVoice s v ok) ≤ 1 ∧
    emissions (stopAudio s) ≤ 1 ∧
    (item.hasBuffer = true → s.playbackRate ≠ 0 → off < item.duration →
      emissions (playAudio s item off now) = 1 ∧
      (playAudio s item off now).sourceNode = true ∧
      (playAudio s item off now).previewSource = false ∧
      (playAudio s item off now).activeId = some item.id) := by
  refine ⟨?_, ?_, ?_, fun hbuf hrate hoff => ?_⟩
  · by_cases hbuf : item.hasBuffer = true
    · clear hwf hone
      obtain ⟨a, ip, ct, du, pt, st, pr, sn, ra, ps, pv⟩ := s
      unfold playAudio stopAudio emissions
      rw [hbuf]
      dsimp only
      split_ifs <;> simp_all
    · rw [playAudio_no_buffer s item off now (by simpa using hbuf)]
      exact hone
  · clear hone
    obtain ⟨a, ip, ct, du, pt, st, pr, sn, ra, ps, pv⟩ := s
    unfold EngineWF at hwf
    dsimp only at hwf
    subst hwf
    unfold handlePreviewVoice stopAudio emissions
    cases sn <;> cases ps <;> by_cases hpv : pv = some v <;> cases ok <;> simp [hpv]
  · unfold emissions stopAudio
    split_ifs <;> simp_all
  · have h := playAudio_normal s item off now hbuf hrate hoff
    refine ⟨?_, h.2.2.1, h.2.2.2.1, h.2.2.2.2.2⟩
    unfold emissions
    rw [h.2.2.1, h.2.2.2.1]
    rfl

/-- C9 witness: starting playback of item 2 at offset 0 while item 1 is
playing yields exactly one live emission, the new source, with no preview
and item 2 active. -/
theorem single_emission_invariant_witness :
    emissions (playAudio
      { activeId := some 1, isPlaying := true, currentTime := 0, duration := 1,
        pauseTime := 0, startTime := 0, playbackRate := 1, sourceNode := true,
        rafActive := true, previewSource := false, previewVoice := none }
      { id := 2, hasBuffer := true, duration := 1 } 0 0) = 1 ∧
    (playAudio
      { activeId := some 1, isPlaying := true, currentTime := 0, duration := 1,
        pauseTime := 0, startTime := 0, playbackRate := 1, sourceNode := true,
        rafActive := true, previewSource := false, previewVoice := none }
      { id := 2, hasBuffer := true, duration := 1 } 0 0).sourceNode = true ∧
    (playAudio
      { activeId := some 1, isPlaying := true, currentTime := 0, duration := 1,
        pauseTime := 0, startTime := 0, playbackRate := 1, sourceNode := true,
        rafActive := true, previewSource := false, previewVoice := none }
      { id := 2, hasBuffer := true, duration := 1 } 0 0).previewSource = false ∧
    (playAudio
      { activeId := some 1, isPlaying := true, currentTime := 0, duration := 1,
        pauseTime := 0, startTime := 0, playbackRate := 1, sourceNode := true,
        rafActive := true, previewSource := false, previewVoice := none }
      { id := 2, hasBuffer := true, duration := 1 } 0 0).activeId = some 2 :=
  (single_emission_invariant
    { activeId := some 1, isPlaying := true, currentTime := 0, duration := 1,
      pauseTime := 0, startTime := 0, playbackRate := 1, sourceNode := true,
      rafActive := true, previewSource := false, previewVoice := none }
    { id := 2, hasBuffer := true, duration := 1 } 0 0 5 true rfl
    (by decide)).2.2.2 rfl (by norm_num) (by norm_num)
